import Mathlib

/-
Verification of the streaming conversation/session core of the Lim-Code
extension: the StreamAbortManager registry and the chat-store message /
stream reconciliation logic (sendMessage, retryFromMessage, editAndRetry,
deleteMessage, handleStreamChunk).

The TypeScript sources are embedded shallowly: every `await sendToExtension`
call becomes an explicit outcome parameter of type `Except JsError α`, the
mutable store state becomes an explicit `ChatState` record threaded through
the functions, and JavaScript truthiness on optional strings is made
explicit via `jsTruthy` / `jsOrStr`.
-/

set_option autoImplicit false

/-- Error value thrown by a backend call: code and message are both
optional, mirroring a JavaScript error object whose fields may be absent. -/
structure JsError where
  code : Option String
  message : Option String
deriving Repr, DecidableEq

/-- Error slot value stored in the chat state. -/
structure ErrorInfo where
  code : String
  message : String
deriving Repr, DecidableEq

/-- JavaScript `x || d` on an optional string: the default wins when the
value is absent or the empty string (both falsy). -/
def jsOrStr (o : Option String) (d : String) : String :=
  match o with
  | some s => if s = "" then d else s
  | none => d

/-- JavaScript truthiness of an optional string: absent and empty are falsy. -/
def jsTruthy (o : Option String) : Bool :=
  match o with
  | some s => s != ""
  | none => false

/-- JavaScript `x || undefined` on an optional string: the empty string is
collapsed to absent. -/
def jsStrOpt (o : Option String) : Option String :=
  match o with
  | some s => if s = "" then none else some s
  | none => none

/-- JavaScript `String.prototype.trim`: drop whitespace from both ends
(defined structurally on the character list). -/
def jsTrim (s : String) : String :=
  String.mk (((s.data.dropWhile Char.isWhitespace).reverse.dropWhile
    Char.isWhitespace).reverse)

/-- Attachment record from the frontend types. -/
structure Attachment where
  id : String
  name : String
  type : String
  size : Nat
  mimeType : String
  data : Option String
  thumbnail : Option String
deriving Repr, DecidableEq

/-- Message role. -/
inductive Role where
  | user
  | assistant
  | functionResp
deriving Repr, DecidableEq

/-- Chat message. The TS `metadata: { modelVersion }` object is flattened
into the single `modelVersion` field; `parts` keeps the text parts. -/
structure Message where
  id : String
  role : Role
  content : String
  timestamp : Nat
  attachments : Option (List Attachment)
  streaming : Bool
  parts : Option (List String)
  modelVersion : Option String
  isFunctionResponse : Bool
deriving Repr, DecidableEq

/-- Conversation summary record. -/
structure Conversation where
  id : String
  title : String
  createdAt : Nat
  updatedAt : Nat
  messageCount : Nat
  preview : Option String
  isPersisted : Bool
  workspaceUri : Option String
deriving Repr, DecidableEq

/-- Checkpoint record: a snapshot reference holding the conversation id, the
message index it is attached to, and opaque metadata. -/
structure CheckpointRecord where
  conversationId : String
  messageIndex : Nat
  meta : String
deriving Repr, DecidableEq

/-- The chat store state (the `.value` refs of ChatStoreState flattened into
one record). The diff-tracking maps and sets are modelled as lists. -/
structure ChatState where
  currentConversationId : Option String
  conversations : List Conversation
  allMessages : List Message
  checkpoints : List CheckpointRecord
  streamingMessageId : Option String
  isLoading : Bool
  isStreaming : Bool
  isWaitingForResponse : Bool
  error : Option ErrorInfo
  configId : Option String
  toolCallBuffer : String
  inToolCall : Option String
  processedDiffTools : List (String × String)
  handledDiffIds : List String
  handledFilePaths : List (String × String)
  pendingDiffToolIds : List String
  pendingAnnotation : String
  currentWorkspaceUri : Option String
deriving Repr, DecidableEq

/-- Modelled from the spec: `clearCheckpointsFromIndex` lives in
checkpointActions.ts, which is not among the sources; the spec says retry,
edit and delete remove all checkpoints at or after the given message index,
so the modelled operation keeps exactly the checkpoints whose index is
strictly below it. -/
def clearCheckpointsFromIndex (s : ChatState) (index : Nat) : ChatState :=
  { s with checkpoints := s.checkpoints.filter (fun cp => cp.messageIndex < index) }

/-- Modelled from the spec: the cancel-stream callback passed into the
message actions is defined in the chat store entry module, which is not
among the sources. Per the `cancelled` row of the reconciler table, it
finalizes the current streaming message as stopped with its content
retained, and clears `streamingMessageId` and the waiting/streaming flags. -/
def cancelStreamModel (s : ChatState) : ChatState :=
  { s with
    allMessages := s.allMessages.map (fun m =>
      if some m.id = s.streamingMessageId then { m with streaming := false } else m),
    streamingMessageId := none,
    isStreaming := false,
    isWaitingForResponse := false }

/-
StreamAbortManager (source: the stream request manager module).

A JavaScript `Map<string, AbortController>` is modelled as an association
list from keys to controller identifiers; controllers themselves are
identified by the `Nat` handed out by `create`, and signalling a controller
is modelled by inserting its identifier into the `aborted` list, which
stands for the externally observable set of signalled controllers.
-/

/-- JS `Map.get`: value of the first entry with the key. -/
def mapGet (m : List (String × Nat)) (k : String) : Option Nat :=
  (m.find? (fun p => p.1 == k)).map (fun p => p.2)

/-- JS `Map.set`: update the entry in place when the key is present,
otherwise append in insertion order. -/
def mapSet (m : List (String × Nat)) (k : String) (v : Nat) : List (String × Nat) :=
  if m.any (fun p => p.1 == k) then
    m.map (fun p => if p.1 == k then (p.1, v) else p)
  else m ++ [(k, v)]

/-- JS `Map.delete`: remove the entry with the key. -/
def mapDelete (m : List (String × Nat)) (k : String) : List (String × Nat) :=
  m.filter (fun p => !(p.1 == k))

/-- Registry of abort controllers: key-to-controller map, the set of
controllers that have been signalled, and the next fresh controller id. -/
structure StreamAbortManager where
  controllers : List (String × Nat)
  aborted : List Nat
  nextId : Nat
deriving Repr, DecidableEq

/-- `create(conversationId)`: allocate a fresh controller, store it under
the key (replacing any existing entry), and return it. -/
def StreamAbortManager.create (r : StreamAbortManager) (conversationId : String) :
    StreamAbortManager × Nat :=
  let controller := r.nextId
  ({ r with
      controllers := mapSet r.controllers conversationId controller,
      nextId := r.nextId + 1 },
   controller)

/-- `get(conversationId)`: look up the stored controller. -/
def StreamAbortManager.get (r : StreamAbortManager) (conversationId : String) :
    Option Nat :=
  mapGet r.controllers conversationId

/-- `cancel(conversationId)`: when an entry exists, abort its controller,
remove the entry and return true; otherwise return false. -/
def StreamAbortManager.cancel (r : StreamAbortManager) (conversationId : String) :
    StreamAbortManager × Bool :=
  match mapGet r.controllers conversationId with
  | some controller =>
      ({ r with
          aborted := controller :: r.aborted,
          controllers := mapDelete r.controllers conversationId }, true)
  | none => (r, false)

/-- `delete(conversationId)`: remove the entry without signalling. -/
def StreamAbortManager.delete (r : StreamAbortManager) (conversationId : String) :
    StreamAbortManager :=
  { r with controllers := mapDelete r.controllers conversationId }

/-- One iteration of the `cancelAll` loop: abort the controller of the
entry, then attempt to notify the external sink for its key inside a
try/catch whose failures are ignored. -/
def cancelAllStep (sink : String → Except Unit Unit) (acc : StreamAbortManager)
    (p : String × Nat) : StreamAbortManager :=
  let acc := { acc with aborted := p.2 :: acc.aborted }
  match sink p.1 with
  | Except.ok _ => acc
  | Except.error _ => acc

/-- `cancelAll(view?)`: abort every tracked controller, best-effort notify
the sink (the webview postMessage) for each key, then clear the map. -/
def StreamAbortManager.cancelAll (r : StreamAbortManager)
    (sink : String → Except Unit Unit) : StreamAbortManager :=
  let r1 := r.controllers.foldl (cancelAllStep sink) r
  { r1 with controllers := [] }

/-- `size`: number of tracked entries. -/
def StreamAbortManager.size (r : StreamAbortManager) : Nat :=
  r.controllers.length

/-
Chat store message actions (source: messageActions.ts). Each `await
sendToExtension` becomes an explicit `Except JsError _` outcome parameter;
generated ids and `Date.now()` timestamps become parameters as well. The
cancel-stream callback keeps its callback shape: a `ChatState → ChatState`
parameter, instantiated with `cancelStreamModel` in the theorems.
-/

/-- JS `attachments && attachments.length > 0 ? attachments : undefined`. -/
def attOpt (attachments : Option (List Attachment)) : Option (List Attachment) :=
  match attachments with
  | some l => if l.isEmpty then none else some l
  | none => none

/-- JS `!attachments || attachments.length === 0`. -/
def noAttachments (attachments : Option (List Attachment)) : Bool :=
  match attachments with
  | some l => l.isEmpty
  | none => true

/-- The user message built by sendMessage. -/
def newUserMessage (id : String) (now : Nat) (text : String)
    (attachments : Option (List Attachment)) : Message :=
  { id := id
    role := Role.user
    content := text
    timestamp := now
    attachments := attOpt attachments
    streaming := false
    parts := none
    modelVersion := none
    isFunctionResponse := false }

/-- The placeholder assistant message appended before a turn starts:
empty content, `streaming = true`, current model name in the metadata. -/
def newAssistantPlaceholder (id : String) (now : Nat) (modelName : String) : Message :=
  { id := id
    role := Role.assistant
    content := ""
    timestamp := now
    attachments := none
    streaming := true
    parts := none
    modelVersion := some modelName
    isFunctionResponse := false }

/-- Update the first list element satisfying the predicate (JS
`list.find(...)` followed by in-place mutation of the found element). -/
def updateFirst {α : Type} (p : α → Bool) (f : α → α) : List α → List α
  | [] => []
  | c :: cs => if p c then f c :: cs else c :: updateFirst p f cs

/-- Replace the element at the index, if any (JS in-place mutation of
`list[i]`). -/
def modifyAt {α : Type} (f : α → α) : Nat → List α → List α
  | _, [] => []
  | 0, a :: as => f a :: as
  | n + 1, a :: as => a :: modifyAt f n as

/-- sendMessage lines 68-73: stamp `updatedAt`, `messageCount` and
`preview` on the current conversation, when it is in the list. -/
def touchCurrentConversation (s : ChatState) (now : Nat) (messageText : String) :
    ChatState :=
  let convs := updateFirst
    (fun c => some c.id == s.currentConversationId)
    (fun c => { c with
                updatedAt := now,
                messageCount := s.allMessages.length,
                preview := some (messageText.take 50) })
    s.conversations
  { s with conversations := convs }

/-- createAndPersistConversation (conversationActions module): build the
title from the first message, ask the backend to create the conversation,
and on success prepend the new conversation and make it current; a backend
failure is caught and surfaces as a `none` id with the state untouched. -/
def createAndPersistConversation (s : ChatState) (firstMessage : String)
    (newId : String) (now : Nat) (backend : Except JsError Unit) :
    ChatState × Option String :=
  let title := firstMessage.take 30 ++ (if 30 < firstMessage.length then "..." else "")
  match backend with
  | Except.ok _ =>
      let newConversation : Conversation :=
        { id := newId
          title := title
          createdAt := now
          updatedAt := now
          messageCount := 0
          preview := none
          isPersisted := true
          workspaceUri := jsStrOpt s.currentWorkspaceUri }
      ({ s with
          conversations := newConversation :: s.conversations,
          currentConversationId := some newId },
       some newId)
  | Except.error _ => (s, none)

/-- The body of sendMessage from the user-message push to the dispatch:
returns the state reached together with the error when the dispatch threw. -/
def sendMessageBody (s : ChatState) (modelName : String) (messageText : String)
    (attachments : Option (List Attachment)) (userMsgId assistantMsgId : String)
    (now : Nat) (dispatch : Except JsError Unit) : ChatState × Option JsError :=
  let s := { s with allMessages :=
      s.allMessages ++ [newUserMessage userMsgId now messageText attachments] }
  let s := { s with
      allMessages := s.allMessages ++ [newAssistantPlaceholder assistantMsgId now modelName],
      streamingMessageId := some assistantMsgId }
  let s := touchCurrentConversation s now messageText
  let s := { s with toolCallBuffer := "", inToolCall := none }
  match dispatch with
  | Except.ok _ => (s, none)
  | Except.error e => (s, some e)

/-- sendMessage: guard on blank text without attachments, clear the error
slot, guard on an already waiting conversation, raise the loading flags,
lazily create a conversation when none is current, append the user message
and the streaming placeholder, stamp the conversation metadata, dispatch
the chatStream request, and on a thrown dispatch roll back the flags and
surface the error while keeping the appended messages. -/
def sendMessage (s : ChatState) (modelName : String) (messageText : String)
    (attachments : Option (List Attachment)) (newConvId userMsgId assistantMsgId : String)
    (now : Nat) (createBackend : Except JsError Unit) (dispatch : Except JsError Unit) :
    ChatState :=
  if jsTrim messageText = "" ∧ noAttachments attachments then s
  else
    let s := { s with error := none }
    if s.isWaitingForResponse then s
    else
      let s := { s with isLoading := true, isStreaming := true, isWaitingForResponse := true }
      let body : ChatState × Option JsError :=
        if s.currentConversationId = none then
          match createAndPersistConversation s messageText newConvId now createBackend with
          | (s1, some _) =>
              sendMessageBody s1 modelName messageText attachments userMsgId assistantMsgId
                now dispatch
          | (s1, none) =>
              (s1, some { code := none, message := some "Failed to create conversation" })
        else
          sendMessageBody s modelName messageText attachments userMsgId assistantMsgId
            now dispatch
      let s2 :=
        match body with
        | (s1, none) => s1
        | (s1, some e) =>
            if s1.isStreaming then
              { s1 with
                error := some
                  { code := jsOrStr e.code "SEND_ERROR"
                    message := jsOrStr e.message "Failed to send message" }
                streamingMessageId := none
                isStreaming := false
                isWaitingForResponse := false }
            else s1
      { s2 with isLoading := false }

/-- retryFromMessage: guard on a missing conversation or an empty or
out-of-range index, cancel an active stream, raise the flags, truncate the
message list to the index (exclusive), drop the checkpoints at or after it,
issue a best-effort backend deletion whose failure is logged and swallowed,
reset the tool-call and diff-tracking buffers, append a fresh streaming
placeholder, and dispatch the retryStream request with the usual rollback
on a thrown dispatch. -/
def retryFromMessage (s : ChatState) (modelName : String) (messageIndex : Int)
    (cancelStream : ChatState → ChatState) (assistantMsgId : String) (now : Nat)
    (backendDelete : Except JsError Unit) (dispatch : Except JsError Unit) : ChatState :=
  if s.currentConversationId = none ∨ s.allMessages.length = 0 then s
  else if messageIndex < 0 ∨ (s.allMessages.length : Int) ≤ messageIndex then s
  else
    let s := if s.isStreaming then cancelStream s else s
    let s := { s with
        error := none, isLoading := true, isStreaming := true, isWaitingForResponse := true }
    let s := { s with allMessages := s.allMessages.take messageIndex.toNat }
    let s := clearCheckpointsFromIndex s messageIndex.toNat
    let _ := backendDelete
    let s := { s with
        toolCallBuffer := ""
        inToolCall := none
        processedDiffTools := []
        handledDiffIds := []
        handledFilePaths := []
        pendingDiffToolIds := []
        pendingAnnotation := "" }
    let s := { s with
        allMessages := s.allMessages ++ [newAssistantPlaceholder assistantMsgId now modelName],
        streamingMessageId := some assistantMsgId }
    let s :=
      match dispatch with
      | Except.ok _ => s
      | Except.error e =>
          if s.isStreaming then
            { s with
              error := some
                { code := jsOrStr e.code "RETRY_ERROR"
                  message := jsOrStr e.message "Retry failed" }
              streamingMessageId := none
              isStreaming := false
              isWaitingForResponse := false }
          else s
    { s with isLoading := false }

/-- editAndRetry: guard on blank replacement text without attachments or a
missing conversation or an out-of-range index, cancel an active stream,
raise the flags, rewrite the message at the index in place, truncate the
list to the index inclusive, drop the checkpoints at or after the index,
reset the tool-call buffer, append a fresh streaming placeholder, and
dispatch the editAndRetryStream request with the usual rollback on a
thrown dispatch. -/
def editAndRetry (s : ChatState) (modelName : String) (messageIndex : Int)
    (newMessage : String) (attachments : Option (List Attachment))
    (cancelStream : ChatState → ChatState) (assistantMsgId : String) (now : Nat)
    (dispatch : Except JsError Unit) : ChatState :=
  if (jsTrim newMessage = "" ∧ noAttachments attachments) ∨ s.currentConversationId = none
    then s
  else if messageIndex < 0 ∨ (s.allMessages.length : Int) ≤ messageIndex then s
  else
    let s := if s.isStreaming then cancelStream s else s
    let s := { s with
        error := none, isLoading := true, isStreaming := true, isWaitingForResponse := true }
    let s := { s with allMessages :=
        (modifyAt (fun m => { m with
            content := newMessage
            parts := some [newMessage]
            attachments := attOpt attachments })
          messageIndex.toNat s.allMessages).take (messageIndex.toNat + 1) }
    let s := clearCheckpointsFromIndex s messageIndex.toNat
    let s := { s with toolCallBuffer := "", inToolCall := none }
    let s := { s with
        allMessages := s.allMessages ++ [newAssistantPlaceholder assistantMsgId now modelName],
        streamingMessageId := some assistantMsgId }
    let s :=
      match dispatch with
      | Except.ok _ => s
      | Except.error e =>
          if s.isStreaming then
            { s with
              error := some
                { code := jsOrStr e.code "EDIT_RETRY_ERROR"
                  message := jsOrStr e.message "Edit and retry failed" }
              streamingMessageId := none
              isStreaming := false
              isWaitingForResponse := false }
          else s
    { s with isLoading := false }

/-- Backend response to the deleteMessage request. -/
structure DeleteResponse where
  success : Bool
  deletedCount : Nat
deriving Repr, DecidableEq

/-- deleteMessage (cascading): guard on a missing conversation or an
out-of-range index, cancel an active stream, ask the backend to delete
from the index onward, and only when the backend reports success truncate
the local list and the checkpoints; a thrown backend call only sets the
error slot. -/
def deleteMessage (s : ChatState) (targetIndex : Int)
    (cancelStream : ChatState → ChatState) (backend : Except JsError DeleteResponse) :
    ChatState :=
  if s.currentConversationId = none then s
  else if targetIndex < 0 ∨ (s.allMessages.length : Int) ≤ targetIndex then s
  else
    let s := if s.isStreaming then cancelStream s else s
    match backend with
    | Except.ok resp =>
        if resp.success then
          let s := { s with allMessages := s.allMessages.take targetIndex.toNat }
          clearCheckpointsFromIndex s targetIndex.toNat
        else s
    | Except.error e =>
        { s with error := some { code := jsOrStr e.code "DELETE_ERROR",
                                 message := jsOrStr e.message "Delete failed" } }

/-
Stream handler (source: streamHandler.ts for the dispatcher; the per-kind
handlers live in streamChunkHandlers.ts, which is not among the sources,
so their bodies are modelled from the reconciler table of the spec).
-/

/-- Kinds of stream chunk events. -/
inductive ChunkType where
  | chunk
  | toolsExecuting
  | awaitingConfirmation
  | toolIteration
  | complete
  | checkpoints
  | cancelled
  | error
deriving Repr, DecidableEq

/-- Stream chunk event as delivered to the webview: the owning conversation
id, the kind tag, and the optional payload fields the dispatcher and the
handlers read. -/
structure StreamChunk where
  conversationId : String
  type : ChunkType
  chunk : Option String
  content : Option String
  checkpoints : Option (List CheckpointRecord)
  errorCode : Option String
  errorMessage : Option String
deriving Repr, DecidableEq

/-- Modelled from the spec: `handleChunkType` (streamChunkHandlers.ts is
not among the sources) appends the incoming fragment to the message
identified by `streamingMessageId`; the tool-call fragment buffering is
abstracted as a plain text append on the modelled state. -/
def handleChunkType (c : StreamChunk) (s : ChatState) : ChatState :=
  { s with allMessages := s.allMessages.map (fun m =>
      if some m.id = s.streamingMessageId then
        { m with content := m.content ++ c.chunk.getD "" }
      else m) }

/-- Modelled from the spec: `handleToolsExecuting` marks the listed
tool-call ids as executing, a UI/status-only effect with no content
mutation; the modelled state carries no per-tool UI status, so the effect
is the identity on it. -/
def handleToolsExecuting (c : StreamChunk) (s : ChatState) : ChatState :=
  let _ := c
  s

/-- Modelled from the spec: `handleAwaitingConfirmation` marks the listed
tool-call ids as awaiting user confirmation without finalizing the message;
like `handleToolsExecuting` it is the identity on the modelled state. -/
def handleAwaitingConfirmation (c : StreamChunk) (s : ChatState) : ChatState :=
  let _ := c
  s

/-- Modelled from the spec: `handleToolIteration` finalizes the current
streaming message with the carried content, appends any implied
checkpoints, and opens a new streaming assistant placeholder. -/
def handleToolIteration (c : StreamChunk) (modelName newMsgId : String) (now : Nat)
    (s : ChatState) : ChatState :=
  let finalized := s.allMessages.map (fun m =>
    if some m.id = s.streamingMessageId then
      { m with streaming := false, content := c.content.getD m.content }
    else m)
  { s with
    allMessages := finalized ++ [newAssistantPlaceholder newMsgId now modelName],
    checkpoints := s.checkpoints ++ c.checkpoints.getD [],
    streamingMessageId := some newMsgId }

/-- Modelled from the spec: `handleComplete` finalizes the current
streaming message with the final content, appends the checkpoints, clears
`streamingMessageId` and the waiting/loading flags. -/
def handleComplete (c : StreamChunk) (s : ChatState) : ChatState :=
  let finalized := s.allMessages.map (fun m =>
    if some m.id = s.streamingMessageId then
      { m with streaming := false, content := c.content.getD m.content }
    else m)
  { s with
    allMessages := finalized,
    checkpoints := s.checkpoints ++ c.checkpoints.getD [],
    streamingMessageId := none,
    isStreaming := false,
    isWaitingForResponse := false,
    isLoading := false }

/-- Modelled from the spec: `handleCheckpoints` appends the carried
checkpoint records to the checkpoint list, independent of message
finalization. -/
def handleCheckpoints (c : StreamChunk) (s : ChatState) : ChatState :=
  { s with checkpoints := s.checkpoints ++ c.checkpoints.getD [] }

/-- Modelled from the spec: `handleCancelled` finalizes the current
streaming message as stopped with content retained and clears
`streamingMessageId` and the flags. -/
def handleCancelled (c : StreamChunk) (s : ChatState) : ChatState :=
  let _ := c
  cancelStreamModel s

/-- Modelled from the spec: `handleError` records the error details in the
error slot of the conversation, finalizes the current streaming message as
stopped, and clears the flags. -/
def handleError (c : StreamChunk) (s : ChatState) : ChatState :=
  let s := cancelStreamModel s
  { s with error := some { code := jsOrStr c.errorCode "STREAM_ERROR",
                           message := jsOrStr c.errorMessage "Stream error" } }

/-- handleStreamChunk (streamHandler.ts): drop events of other
conversations, then dispatch on the chunk kind; `chunk` events are applied
only when a fragment is present and a streaming message is registered, and
`toolIteration` / `complete` events only when they carry content. -/
def handleStreamChunk (c : StreamChunk) (modelName newMsgId : String) (now : Nat)
    (s : ChatState) : ChatState :=
  if s.currentConversationId ≠ some c.conversationId then s
  else
    match c.type with
    | ChunkType.chunk =>
        if jsTruthy c.chunk ∧ jsTruthy s.streamingMessageId then handleChunkType c s
        else s
    | ChunkType.toolsExecuting => handleToolsExecuting c s
    | ChunkType.awaitingConfirmation => handleAwaitingConfirmation c s
    | ChunkType.toolIteration =>
        if jsTruthy c.content then handleToolIteration c modelName newMsgId now s else s
    | ChunkType.complete =>
        if jsTruthy c.content then handleComplete c s else s
    | ChunkType.checkpoints => handleCheckpoints c s
    | ChunkType.cancelled => handleCancelled c s
    | ChunkType.error => handleError c s

/-
Fixtures used by witnesses and counterexamples.
-/

/-- A plain user message fixture. -/
def sampleMsg (i : String) : Message :=
  { id := i
    role := Role.user
    content := "hello"
    timestamp := 0
    attachments := none
    streaming := false
    parts := none
    modelVersion := none
    isFunctionResponse := false }

/-- A checkpoint fixture attached to the given message index. -/
def sampleCp (i : Nat) : CheckpointRecord :=
  { conversationId := "c1", messageIndex := i, meta := "" }

/-- A base chat state fixture: conversation c1 is current, three messages,
one checkpoint per message index, no stream active. -/
def sampleState : ChatState :=
  { currentConversationId := some "c1"
    conversations := []
    allMessages := [sampleMsg "m0", sampleMsg "m1", sampleMsg "m2"]
    checkpoints := [sampleCp 0, sampleCp 1, sampleCp 2]
    streamingMessageId := none
    isLoading := false
    isStreaming := false
    isWaitingForResponse := false
    error := none
    configId := none
    toolCallBuffer := ""
    inToolCall := none
    processedDiffTools := []
    handledDiffIds := []
    handledFilePaths := []
    pendingDiffToolIds := []
    pendingAnnotation := ""
    currentWorkspaceUri := none }

/-- Like `sampleState` but with four messages and four checkpoints. -/
def sampleState4 : ChatState :=
  { sampleState with
    allMessages := [sampleMsg "m0", sampleMsg "m1", sampleMsg "m2", sampleMsg "m3"],
    checkpoints := [sampleCp 0, sampleCp 1, sampleCp 2, sampleCp 3] }

/-- C3: once `streamingMessageId` has been cleared (as a `cancelled` or
`complete` event does), any subsequent `chunk`-kind StreamChunk leaves the
whole chat state unchanged, whatever its conversation and payload. -/
theorem stale_chunk_is_noop (c : StreamChunk) (modelName newMsgId : String)
    (now : Nat) (s : ChatState) (hk : c.type = ChunkType.chunk)
    (hcleared : s.streamingMessageId = none) :
    handleStreamChunk c modelName newMsgId now s = s := by
  unfold handleStreamChunk
  simp [hk, hcleared, jsTruthy]

/-- Witness for `stale_chunk_is_noop` at a concrete cleared state. -/
theorem stale_chunk_is_noop_witness :
    handleStreamChunk
      { conversationId := "c1", type := ChunkType.chunk, chunk := some "more",
        content := none, checkpoints := none, errorCode := none, errorMessage := none }
      "model" "id9" 5 sampleState = sampleState :=
  stale_chunk_is_noop _ _ _ _ _ rfl rfl

/-- C4: a StreamChunk whose conversation id differs from the currently
displayed conversation leaves the whole chat state unchanged, for every
chunk kind. -/
theorem cross_conversation_chunk_is_noop (c : StreamChunk)
    (modelName newMsgId : String) (now : Nat) (s : ChatState) (cid : String)
    (hcur : s.currentConversationId = some cid) (hne : c.conversationId ≠ cid) :
    handleStreamChunk c modelName newMsgId now s = s := by
  have hcond : s.currentConversationId ≠ some c.conversationId := by
    rw [hcur]
    intro h
    exact hne (Option.some.inj h).symm
  unfold handleStreamChunk
  rw [if_pos hcond]

/-- Witness for `cross_conversation_chunk_is_noop`: a content-carrying
`complete` chunk of another conversation is dropped. -/
theorem cross_conversation_chunk_is_noop_witness :
    handleStreamChunk
      { conversationId := "c2", type := ChunkType.complete, chunk := none,
        content := some "done", checkpoints := none, errorCode := none,
        errorMessage := none }
      "model" "id9" 5 sampleState = sampleState :=
  cross_conversation_chunk_is_noop _ _ _ _ _ "c1" rfl (by decide)

/-- C10: a `complete` or `toolIteration` StreamChunk whose content is
absent or empty leaves the whole chat state unchanged. -/
theorem empty_content_finalizer_is_noop (c : StreamChunk)
    (modelName newMsgId : String) (now : Nat) (s : ChatState)
    (hk : c.type = ChunkType.complete ∨ c.type = ChunkType.toolIteration)
    (hc : c.content = none ∨ c.content = some "") :
    handleStreamChunk c modelName newMsgId now s = s := by
  have hjt : jsTruthy c.content = false := by
    rcases hc with h | h <;> simp [jsTruthy, h]
  unfold handleStreamChunk
  rcases hk with h | h <;> simp [h, hjt]

/-- Witness for `empty_content_finalizer_is_noop` at a concrete
content-free `complete` chunk addressed to the current conversation. -/
theorem empty_content_finalizer_is_noop_witness :
    handleStreamChunk
      { conversationId := "c1", type := ChunkType.complete, chunk := none,
        content := none, checkpoints := none, errorCode := none,
        errorMessage := none }
      "model" "id9" 5 sampleState = sampleState :=
  empty_content_finalizer_is_noop _ _ _ _ _ (Or.inl rfl) (Or.inl rfl)

/-
StreamAbortManager theorems.
-/

/-- After deleting a key, a lookup of that key fails. -/
theorem mapGet_mapDelete (m : List (String × Nat)) (k : String) :
    mapGet (mapDelete m k) k = none := by
  induction m with
  | nil => rfl
  | cons p t ih =>
      by_cases h : p.1 == k
      · simp only [mapDelete, List.filter, h]
        exact ih
      · simp only [mapDelete, List.filter, h] at ih ⊢
        simp [mapGet, List.find?, h, ih]

/-- Keys not present are untouched by deletion. -/
theorem mapDelete_of_not_mem (m : List (String × Nat)) (k : String)
    (h : ∀ p ∈ m, (p.1 == k) = false) : mapDelete m k = m := by
  unfold mapDelete
  rw [List.filter_eq_self]
  intro p hp
  simp [h p hp]

/-- On a map whose keys are distinct, deleting one key drops at most one
entry. -/
theorem length_mapDelete_ge (m : List (String × Nat)) (k : String)
    (h : (m.map Prod.fst).Nodup) : m.length ≤ (mapDelete m k).length + 1 := by
  induction m with
  | nil => simp
  | cons p t ih =>
      rw [List.map_cons, List.nodup_cons] at h
      by_cases hk : p.1 == k
      · have hdel : mapDelete t k = t := by
          apply mapDelete_of_not_mem
          intro q hq
          rcases eq_of_beq hk with rfl
          by_contra hqk
          exact h.1 (by
            rw [List.mem_map]
            exact ⟨q, hq, eq_of_beq (by simpa using hqk)⟩)
        simp [mapDelete, List.filter, hk, hdel.symm ▸ (le_refl (t.length + 1))]
        rw [show (List.filter (fun p => !(p.1 == k)) t) = mapDelete t k from rfl, hdel]
      · have : mapDelete (p :: t) k = p :: mapDelete t k := by
          simp [mapDelete, List.filter, hk]
        rw [this]
        simpa using ih h.2

/-- C5: `cancel(key)` returns true, signals the stored controller and
removes the entry exactly when an entry exists; on an absent key it is a
no-op returning false; a second `cancel` of the same key therefore returns
false, and over the pair of calls the registry size drops by at most one
(the keys of a JS Map are distinct, hence the Nodup hypothesis). -/
theorem cancel_found_and_idempotent (r : StreamAbortManager) (k : String)
    (hnd : (r.controllers.map Prod.fst).Nodup) :
    (∀ controller, mapGet r.controllers k = some controller →
        ((r.cancel k).2 = true ∧ controller ∈ (r.cancel k).1.aborted ∧
          mapGet (r.cancel k).1.controllers k = none))
    ∧ (mapGet r.controllers k = none → r.cancel k = (r, false))
    ∧ ((r.cancel k).1.cancel k).2 = false
    ∧ r.size ≤ ((r.cancel k).1.cancel k).1.size + 1 := by
  refine ⟨?_, ?_, ?_, ?_⟩
  · intro controller hget
    unfold StreamAbortManager.cancel
    rw [hget]
    exact ⟨rfl, List.mem_cons_self _ _, mapGet_mapDelete _ _⟩
  · intro hget
    unfold StreamAbortManager.cancel
    rw [hget]
  · cases hget : mapGet r.controllers k with
    | none => simp [StreamAbortManager.cancel, hget]
    | some controller => simp [StreamAbortManager.cancel, hget, mapGet_mapDelete]
  · cases hget : mapGet r.controllers k with
    | none => simp [StreamAbortManager.cancel, hget]
    | some controller =>
        simp only [StreamAbortManager.cancel, hget, mapGet_mapDelete]
        simpa [StreamAbortManager.size] using length_mapDelete_ge r.controllers k hnd

/-- A one-entry registry fixture. -/
def sampleRegistry : StreamAbortManager :=
  { controllers := [("a", 0)], aborted := [], nextId := 1 }

/-- Witness for `cancel_found_and_idempotent`: on a registry holding key
`a`, the first cancel returns true and the second returns false. -/
theorem cancel_found_and_idempotent_witness :
    (sampleRegistry.cancel "a").2 = true ∧
      ((sampleRegistry.cancel "a").1.cancel "a").2 = false := by
  have h := cancel_found_and_idempotent sampleRegistry "a" (by decide)
  exact ⟨(h.1 0 rfl).1, h.2.2.1⟩

/-- One `cancelAll` loop iteration aborts the controller of the entry
whatever the sink does with the notification. -/
theorem cancelAllStep_eq (sink : String → Except Unit Unit)
    (acc : StreamAbortManager) (p : String × Nat) :
    cancelAllStep sink acc p = { acc with aborted := p.2 :: acc.aborted } := by
  unfold cancelAllStep
  cases sink p.1 <;> rfl

/-- Closed form of the `cancelAll` loop. -/
theorem foldl_cancelAllStep (sink : String → Except Unit Unit)
    (l : List (String × Nat)) (acc : StreamAbortManager) :
    l.foldl (cancelAllStep sink) acc
      = { acc with aborted := (l.map Prod.snd).reverse ++ acc.aborted } := by
  induction l generalizing acc with
  | nil => simp
  | cons p t ih =>
      rw [List.foldl_cons, cancelAllStep_eq, ih]
      simp

/-- Closed form of `cancelAll`: every tracked controller is signalled and
the registry is cleared, independently of the notification sink. -/
theorem cancelAll_eq (r : StreamAbortManager) (sink : String → Except Unit Unit) :
    r.cancelAll sink
      = { r with controllers := [],
                 aborted := (r.controllers.map Prod.snd).reverse ++ r.aborted } := by
  unfold StreamAbortManager.cancelAll
  rw [foldl_cancelAllStep]

/-- C6: for every registry state and every behaviour of the notification
sink, `cancelAll` signals cancellation on every tracked entry and leaves
the registry empty, and the resulting registry does not depend on the sink
at all, so a notification failure for one key never prevents cancellation
of the remaining entries. -/
theorem cancelAll_cancels_all_entries (r : StreamAbortManager)
    (sink : String → Except Unit Unit) :
    (r.cancelAll sink).controllers = []
    ∧ ((r.cancelAll sink).size = 0)
    ∧ (∀ p ∈ r.controllers, p.2 ∈ (r.cancelAll sink).aborted)
    ∧ (∀ sink2, r.cancelAll sink = r.cancelAll sink2) := by
  refine ⟨?_, ?_, ?_, ?_⟩
  · rw [cancelAll_eq]
  · rw [cancelAll_eq]; rfl
  · intro p hp
    rw [cancelAll_eq]
    simp only [List.mem_append, List.mem_reverse, List.mem_map]
    exact Or.inl ⟨p, hp, rfl⟩
  · intro sink2
    rw [cancelAll_eq, cancelAll_eq]

/-- A two-entry registry fixture. -/
def sampleRegistry2 : StreamAbortManager :=
  { controllers := [("a", 0), ("b", 1)], aborted := [], nextId := 2 }

/-- A sink that throws on key `a` and succeeds elsewhere. -/
def sampleFailingSink (k : String) : Except Unit Unit :=
  if k = "a" then Except.error () else Except.ok ()

/-- Witness for `cancelAll_cancels_all_entries`: with a sink that throws on
the first key, both controllers still get signalled and the registry is
emptied. -/
theorem cancelAll_cancels_all_entries_witness :
    (sampleRegistry2.cancelAll sampleFailingSink).controllers = []
    ∧ (0 : Nat) ∈ (sampleRegistry2.cancelAll sampleFailingSink).aborted
    ∧ (1 : Nat) ∈ (sampleRegistry2.cancelAll sampleFailingSink).aborted := by
  have h := cancelAll_cancels_all_entries sampleRegistry2 sampleFailingSink
  exact ⟨h.1, h.2.2.1 ("a", 0) (by decide), h.2.2.1 ("b", 1) (by decide)⟩

/-
deleteMessage and sendMessage theorems.
-/

/-- C7: deleteMessage truncates the local message list and the checkpoint
list exactly when the backend reports success; when the backend reports
non-success the state is untouched, and when the backend call throws only
the error slot is set. Stated for a state with no active stream, so that
the cancel-stream callback is never consulted. -/
theorem deleteMessage_backend_authoritative (s : ChatState) (idx : Nat)
    (cancelStream : ChatState → ChatState) (backend : Except JsError DeleteResponse)
    (cid : String) (hcid : s.currentConversationId = some cid)
    (hidx : idx < s.allMessages.length) (hstream : s.isStreaming = false) :
    (∀ resp, backend = Except.ok resp → resp.success = true →
        deleteMessage s (idx : Int) cancelStream backend
          = { s with allMessages := s.allMessages.take idx,
                     checkpoints := s.checkpoints.filter (fun cp => cp.messageIndex < idx) })
    ∧ (∀ resp, backend = Except.ok resp → resp.success = false →
        deleteMessage s (idx : Int) cancelStream backend = s)
    ∧ (∀ e, backend = Except.error e →
        deleteMessage s (idx : Int) cancelStream backend
          = { s with error := some { code := jsOrStr e.code "DELETE_ERROR",
                                     message := jsOrStr e.message "Delete failed" } }) := by
  have hle : ¬ s.allMessages.length ≤ idx := by omega
  have hneg : ¬ ((idx : Int) < 0) := by omega
  refine ⟨?_, ?_, ?_⟩
  · rintro resp rfl hsucc
    simp [deleteMessage, hcid, hle, hneg, hstream, hsucc, clearCheckpointsFromIndex]
  · rintro resp rfl hsucc
    simp [deleteMessage, hcid, hle, hneg, hstream, hsucc]
  · rintro e rfl
    simp [deleteMessage, hcid, hle, hneg, hstream]

/-- Witness for `deleteMessage_backend_authoritative`: a successful backend
deletion at index 1 truncates the three-message fixture. -/
theorem deleteMessage_backend_authoritative_witness :
    deleteMessage sampleState (1 : Int) (fun s => s)
        (Except.ok { success := true, deletedCount := 2 })
      = { sampleState with
          allMessages := sampleState.allMessages.take 1,
          checkpoints := sampleState.checkpoints.filter
            (fun cp => cp.messageIndex < 1) } :=
  (deleteMessage_backend_authoritative sampleState 1 (fun s => s)
      (Except.ok { success := true, deletedCount := 2 }) "c1" rfl (by decide) rfl).1
    { success := true, deletedCount := 2 } rfl rfl

/-- C8: when the chatStream dispatch throws, sendMessage resets the
waiting/streaming/loading flags, populates the error slot with a code and
message, and keeps the already appended user message and streaming
placeholder in the message list. -/
theorem sendMessage_dispatch_failure (s : ChatState) (modelName messageText : String)
    (attachments : Option (List Attachment)) (newConvId userMsgId assistantMsgId : String)
    (now : Nat) (createBackend : Except JsError Unit) (e : JsError) (cid : String)
    (htext : ¬ jsTrim messageText = "")
    (hwait : s.isWaitingForResponse = false)
    (hcid : s.currentConversationId = some cid) :
    (sendMessage s modelName messageText attachments newConvId userMsgId assistantMsgId
        now createBackend (Except.error e)).isWaitingForResponse = false
    ∧ (sendMessage s modelName messageText attachments newConvId userMsgId assistantMsgId
        now createBackend (Except.error e)).isStreaming = false
    ∧ (sendMessage s modelName messageText attachments newConvId userMsgId assistantMsgId
        now createBackend (Except.error e)).isLoading = false
    ∧ (sendMessage s modelName messageText attachments newConvId userMsgId assistantMsgId
        now createBackend (Except.error e)).error
        = some { code := jsOrStr e.code "SEND_ERROR",
                 message := jsOrStr e.message "Failed to send message" }
    ∧ (sendMessage s modelName messageText attachments newConvId userMsgId assistantMsgId
        now createBackend (Except.error e)).allMessages
        = s.allMessages ++ [newUserMessage userMsgId now messageText attachments,
                            newAssistantPlaceholder assistantMsgId now modelName] := by
  have h1 : ¬ (jsTrim messageText = "" ∧ noAttachments attachments = true) :=
    fun h => htext h.1
  unfold sendMessage
  rw [if_neg h1]
  simp [hwait, hcid, sendMessageBody, touchCurrentConversation]

/-- Witness for `sendMessage_dispatch_failure` on the three-message
fixture with a bare thrown error. -/
theorem sendMessage_dispatch_failure_witness :
    (sendMessage sampleState "model" "hi" none "nc" "u1" "as1" 3 (Except.ok ())
        (Except.error { code := none, message := none })).isWaitingForResponse = false
    ∧ (sendMessage sampleState "model" "hi" none "nc" "u1" "as1" 3 (Except.ok ())
        (Except.error { code := none, message := none })).isStreaming = false
    ∧ (sendMessage sampleState "model" "hi" none "nc" "u1" "as1" 3 (Except.ok ())
        (Except.error { code := none, message := none })).isLoading = false
    ∧ (sendMessage sampleState "model" "hi" none "nc" "u1" "as1" 3 (Except.ok ())
        (Except.error { code := none, message := none })).error
        = some { code := jsOrStr none "SEND_ERROR",
                 message := jsOrStr none "Failed to send message" }
    ∧ (sendMessage sampleState "model" "hi" none "nc" "u1" "as1" 3 (Except.ok ())
        (Except.error { code := none, message := none })).allMessages
        = sampleState.allMessages ++ [newUserMessage "u1" 3 "hi" none,
                                      newAssistantPlaceholder "as1" 3 "model"] :=
  sendMessage_dispatch_failure sampleState "model" "hi" none "nc" "u1" "as1" 3
    (Except.ok ()) { code := none, message := none } "c1" (by decide) rfl rfl

/-- A fixture already awaiting a response and carrying a visible error. -/
def stWaiting : ChatState :=
  { sampleState with
    isWaitingForResponse := true,
    error := some { code := "E", message := "boom" } }

/-- Counterexample to C9 as stated: on a state that is already awaiting a
response and has a non-null error slot, sendMessage with non-blank text is
not a no-op, because it clears the error slot before the waiting guard. -/
theorem sendMessage_noop_claim_counterexample :
    sendMessage stWaiting "model" "hi" none "nc" "u1" "as1" 0 (Except.ok ())
        (Except.ok ()) ≠ stWaiting := by
  decide

/-- C9 amended: sendMessage is a full no-op on blank text with no
attachments; when the text/attachment guard passes but the conversation is
already awaiting a response, it only clears the error slot and changes
nothing else, for every backend outcome. -/
theorem sendMessage_guard_amended (s : ChatState) (modelName messageText : String)
    (attachments : Option (List Attachment)) (newConvId userMsgId assistantMsgId : String)
    (now : Nat) (createBackend dispatch : Except JsError Unit) :
    (jsTrim messageText = "" ∧ noAttachments attachments = true →
        sendMessage s modelName messageText attachments newConvId userMsgId
          assistantMsgId now createBackend dispatch = s)
    ∧ (¬ (jsTrim messageText = "" ∧ noAttachments attachments = true) →
        s.isWaitingForResponse = true →
        sendMessage s modelName messageText attachments newConvId userMsgId
          assistantMsgId now createBackend dispatch = { s with error := none }) := by
  constructor
  · intro h
    unfold sendMessage
    rw [if_pos h]
  · intro h hwait
    unfold sendMessage
    rw [if_neg h]
    simp [hwait]

/-- Witness for `sendMessage_guard_amended`: whitespace-only text is a full
no-op, and non-blank text on an awaiting state only clears the error. -/
theorem sendMessage_guard_amended_witness :
    sendMessage sampleState "model" "   " none "nc" "u1" "as1" 0 (Except.ok ())
        (Except.ok ()) = sampleState
    ∧ sendMessage stWaiting "model" "hi" none "nc" "u1" "as1" 0 (Except.ok ())
        (Except.ok ()) = { stWaiting with error := none } :=
  ⟨(sendMessage_guard_amended sampleState "model" "   " none "nc" "u1" "as1" 0
      (Except.ok ()) (Except.ok ())).1 (by decide),
   (sendMessage_guard_amended stWaiting "model" "hi" none "nc" "u1" "as1" 0
      (Except.ok ()) (Except.ok ())).2 (by decide) rfl⟩

/-
retryFromMessage and editAndRetry theorems.
-/

/-- Counterexample to C1 as stated: on the three-message fixture with
conversation c1 current, retryFromMessage(1) returns a message list of
length 2 (the kept prefix of length 1 plus the freshly appended streaming
placeholder), not of length 1 as the claim requires. -/
theorem retry_truncation_counterexample :
    (retryFromMessage sampleState "model" (1 : Int) cancelStreamModel "a1" 7
        (Except.ok ()) (Except.ok ())).allMessages.length ≠ 1 := by
  decide

/-- C1 amended: for every state with a current conversation and every valid
index k, after retryFromMessage(k) the message list has length k + 1 (the
kept prefix of length k plus a fresh streaming assistant placeholder) and
every checkpoint with message index at or after k has been removed, for
every backend-delete and dispatch outcome. -/
theorem retry_truncation_amended (s : ChatState) (modelName assistantMsgId : String)
    (now : Nat) (k : Nat) (cid : String) (backendDelete dispatch : Except JsError Unit)
    (hcid : s.currentConversationId = some cid)
    (hk : k < s.allMessages.length) :
    (retryFromMessage s modelName (k : Int) cancelStreamModel assistantMsgId now
        backendDelete dispatch).allMessages.length = k + 1
    ∧ (retryFromMessage s modelName (k : Int) cancelStreamModel assistantMsgId now
        backendDelete dispatch).checkpoints
        = s.checkpoints.filter (fun cp => cp.messageIndex < k) := by
  have hlen : ¬ s.allMessages.length = 0 := by omega
  have hle : ¬ s.allMessages.length ≤ k := by omega
  have hneg : ¬ ((k : Int) < 0) := by omega
  constructor
  · cases hstr : s.isStreaming <;> cases dispatch <;>
      simp [retryFromMessage, hcid, hlen, hle, hneg, hstr, cancelStreamModel,
        clearCheckpointsFromIndex] <;> omega
  · cases hstr : s.isStreaming <;> cases dispatch <;>
      simp [retryFromMessage, hcid, hlen, hle, hneg, hstr, cancelStreamModel,
        clearCheckpointsFromIndex]

/-- Witness for `retry_truncation_amended` on the three-message fixture. -/
theorem retry_truncation_amended_witness :
    (retryFromMessage sampleState "model" ((1 : Nat) : Int) cancelStreamModel "a9" 7
        (Except.ok ()) (Except.ok ())).allMessages.length = 1 + 1
    ∧ (retryFromMessage sampleState "model" ((1 : Nat) : Int) cancelStreamModel "a9" 7
        (Except.ok ()) (Except.ok ())).checkpoints
        = sampleState.checkpoints.filter (fun cp => cp.messageIndex < 1) :=
  retry_truncation_amended sampleState "model" "a9" 7 1 "c1" (Except.ok ())
    (Except.ok ()) rfl (by decide)

/-- Counterexample to C2 as stated: on the four-message fixture,
editAndRetry(1, "new text") returns a message list of length 3 (indices 0
and 1 kept, the edited message at index 1, the fresh streaming placeholder
at index 2), not of length 2 as the claim requires. -/
theorem edit_retry_counterexample :
    (editAndRetry sampleState4 "model" (1 : Int) "new text" none cancelStreamModel
        "a2" 7 (Except.ok ())).allMessages.length ≠ 2 := by
  decide

/-- C2 amended: on every 4-message list with a current conversation,
editAndRetry(1, "new text") yields a message list of length 3 with the
edited message (content and parts rewritten to the new text) at index 1
and the new streaming placeholder at index 2, and removes all checkpoints
with index at or after 1, for every dispatch outcome. -/
theorem edit_retry_amended (s : ChatState) (m0 m1 m2 m3 : Message)
    (modelName assistantMsgId : String) (now : Nat) (cid : String)
    (dispatch : Except JsError Unit)
    (hmsgs : s.allMessages = [m0, m1, m2, m3])
    (hcid : s.currentConversationId = some cid) :
    (editAndRetry s modelName ((1 : Nat) : Int) "new text" none cancelStreamModel
        assistantMsgId now dispatch).allMessages.length = 3
    ∧ Option.map Message.content
        (editAndRetry s modelName ((1 : Nat) : Int) "new text" none cancelStreamModel
          assistantMsgId now dispatch).allMessages[1]? = some "new text"
    ∧ Option.map Message.parts
        (editAndRetry s modelName ((1 : Nat) : Int) "new text" none cancelStreamModel
          assistantMsgId now dispatch).allMessages[1]? = some (some ["new text"])
    ∧ (editAndRetry s modelName ((1 : Nat) : Int) "new text" none cancelStreamModel
        assistantMsgId now dispatch).allMessages[2]?
        = some (newAssistantPlaceholder assistantMsgId now modelName)
    ∧ (editAndRetry s modelName ((1 : Nat) : Int) "new text" none cancelStreamModel
        assistantMsgId now dispatch).checkpoints
        = s.checkpoints.filter (fun cp => cp.messageIndex < 1) := by
  have ht : ¬ (jsTrim "new text" = "" ∧ noAttachments none = true) := by decide
  refine ⟨?_, ?_, ?_, ?_, ?_⟩ <;>
    cases hstr : s.isStreaming <;> cases dispatch <;>
      simp [editAndRetry, hmsgs, hcid, ht, hstr, cancelStreamModel,
        clearCheckpointsFromIndex, modifyAt, attOpt]

/-- Witness for `edit_retry_amended` on the four-message fixture. -/
theorem edit_retry_amended_witness :
    (editAndRetry sampleState4 "model" ((1 : Nat) : Int) "new text" none
        cancelStreamModel "a8" 9 (Except.ok ())).allMessages.length = 3
    ∧ Option.map Message.content
        (editAndRetry sampleState4 "model" ((1 : Nat) : Int) "new text" none
          cancelStreamModel "a8" 9 (Except.ok ())).allMessages[1]? = some "new text"
    ∧ Option.map Message.parts
        (editAndRetry sampleState4 "model" ((1 : Nat) : Int) "new text" none
          cancelStreamModel "a8" 9 (Except.ok ())).allMessages[1]?
        = some (some ["new text"])
    ∧ (editAndRetry sampleState4 "model" ((1 : Nat) : Int) "new text" none
        cancelStreamModel "a8" 9 (Except.ok ())).allMessages[2]?
        = some (newAssistantPlaceholder "a8" 9 "model")
    ∧ (editAndRetry sampleState4 "model" ((1 : Nat) : Int) "new text" none
        cancelStreamModel "a8" 9 (Except.ok ())).checkpoints
        = sampleState4.checkpoints.filter (fun cp => cp.messageIndex < 1) :=
  edit_retry_amended sampleState4 (sampleMsg "m0") (sampleMsg "m1") (sampleMsg "m2")
    (sampleMsg "m3") "model" "a8" 9 "c1" (Except.ok ()) rfl rfl
